import Mathlib

/-!
Shallow embedding of the client-side budget heuristics of the
travel-taste-matcher repository (client/src/pages/Home.tsx) together with
the comfort-level validation of shared/schema.ts.

Numbers are modelled as rationals (the JavaScript arithmetic on the inputs
in scope is exact except for the final `Math.round`, which we model as
`jsRound`).  Lookup tables (`Record<string, _>`) are modelled as
association lists queried with `List.lookup`; `?? x` / `|| x` fallbacks
become `Option.getD` (no table in scope contains a falsy value, so `||`
and `??` agree on them).
-/

/-- JavaScript `Math.round`: round half toward positive infinity. -/
def jsRound (q : ℚ) : ℤ := ⌊q + 1/2⌋

/-- JavaScript `String.prototype.trim`: drop leading and trailing whitespace. -/
def jsTrim (s : String) : String :=
  String.mk (((s.data.dropWhile Char.isWhitespace).reverse.dropWhile Char.isWhitespace).reverse)

def splitOnCommaAux : List Char → List Char → List (List Char)
  | [], acc => [acc.reverse]
  | c :: rest, acc =>
    if c = ',' then acc.reverse :: splitOnCommaAux rest []
    else splitOnCommaAux rest (c :: acc)

/-- JavaScript `location.split(",")`. -/
def splitOnComma (s : String) : List String :=
  (splitOnCommaAux s.data []).map String.mk

/-- `type TripType = "domestic" | "international"` (Home.tsx). -/
inductive TripType
  | domestic
  | international
deriving DecidableEq

/-- `CURRENCY_TO_INR` table (Home.tsx). -/
def CURRENCY_TO_INR : List (String × ℚ) :=
  [("INR", 1), ("USD", 83), ("EUR", 90), ("GBP", 105),
   ("JPY", 0.56), ("AUD", 54), ("CAD", 61)]

/-- `CURRENCY_STRENGTH` table (Home.tsx). -/
def CURRENCY_STRENGTH : List (String × String) :=
  [("INR", "weak"), ("JPY", "weak"), ("AUD", "medium"), ("CAD", "medium"),
   ("USD", "strong"), ("EUR", "strong"), ("GBP", "strong")]

/-- `COUNTRY_ALIASES` table (Home.tsx). -/
def COUNTRY_ALIASES : List (String × String) :=
  [("The Netherlands", "Netherlands"), ("Holland", "Netherlands"),
   ("United States of America", "United States"), ("USA", "United States"),
   ("U.S.A.", "United States"), ("UK", "United Kingdom"),
   ("U.K.", "United Kingdom"), ("UAE", "United Arab Emirates")]

/-- `COUNTRY_REGION` table (Home.tsx). -/
def COUNTRY_REGION : List (String × String) :=
  [("Netherlands", "europe"), ("India", "asia"), ("Australia", "oceania"),
   ("New Zealand", "oceania"), ("United States", "north_america"),
   ("Canada", "north_america"), ("United Kingdom", "europe"),
   ("Germany", "europe"), ("France", "europe"), ("Italy", "europe"),
   ("Spain", "europe"), ("Japan", "asia"), ("Singapore", "asia"),
   ("Indonesia", "asia"), ("Thailand", "asia"), ("Malaysia", "asia"),
   ("Vietnam", "asia"), ("Philippines", "asia"),
   ("United Arab Emirates", "middle_east")]

/-- `DOMESTIC_COST_MULTIPLIER_BY_COUNTRY` table (Home.tsx). -/
def DOMESTIC_COST_MULTIPLIER_BY_COUNTRY : List (String × ℚ) :=
  [("Netherlands", 1.25), ("India", 0.85), ("Australia", 1.35),
   ("New Zealand", 1.35), ("United States", 1.4), ("Canada", 1.3),
   ("United Kingdom", 1.3), ("Singapore", 1.35), ("Japan", 1.25)]

/-- The region tags produced by `getRegionFromCountry`
(its TypeScript return type is the union of exactly these strings). -/
def REGION_TAGS : List String :=
  ["asia", "europe", "oceania", "north_america", "south_america",
   "africa", "middle_east", "global"]

/-- `normalizeCountryName` (Home.tsx): trim, return `undefined` for empty
input, resolve through the alias table with the trimmed string as fallback. -/
def normalizeCountryName (country : Option String) : Option String :=
  match country with
  | none => none
  | some c =>
    if jsTrim c = "" then none
    else some ((COUNTRY_ALIASES.lookup (jsTrim c)).getD (jsTrim c))

/-- `getCountryFromLocation` (Home.tsx): split on commas, trim, drop empty
segments, normalize the last segment. -/
def getCountryFromLocation (location : String) : Option String :=
  match (((splitOnComma location).map jsTrim).filter (fun s => s ≠ "")).getLast? with
  | none => none
  | some lastPart => normalizeCountryName (some lastPart)

/-- `getRegionFromCountry` (Home.tsx). -/
def getRegionFromCountry (country : Option String) : String :=
  match country with
  | none => "global"
  | some c => (COUNTRY_REGION.lookup c).getD "global"

/-- `getInternationalOriginMultiplier` (Home.tsx). -/
def getInternationalOriginMultiplier (country : Option String) : ℚ :=
  if getRegionFromCountry country = "oceania" then 1.15
  else if getRegionFromCountry country = "europe" then 1.18
  else if getRegionFromCountry country = "north_america" then 1.2
  else if getRegionFromCountry country = "middle_east" then 1.05
  else if getRegionFromCountry country = "africa" then 1.0
  else if getRegionFromCountry country = "south_america" then 1.1
  else if getRegionFromCountry country = "asia" then 1.0
  else 1.1

/-- `getCurrencyStrengthMultiplier` (Home.tsx). -/
def getCurrencyStrengthMultiplier (currency : String) : ℚ :=
  if (CURRENCY_STRENGTH.lookup currency).getD "medium" = "strong" then 0.9
  else if (CURRENCY_STRENGTH.lookup currency).getD "medium" = "weak" then 1.1
  else 1.0

/-- The argument record of `estimateBudgetRangeInInr` (Home.tsx).  The
comfort level is kept as a raw string because the runtime value flows in
from the zod-validated form data, whose accepted values differ from the
TypeScript `ComfortLevel` union. -/
structure BudgetParams where
  days : ℚ
  numberOfPeople : ℚ
  tripType : TripType
  currency : String
  startLocation : String
  comfortLevel : String
  includesFlights : Bool
  maxFlightHours : ℚ

/-- The `{ low, high }` result of `estimateBudgetRangeInInr` (integers after
`Math.round`). -/
structure BudgetRange where
  low : ℤ
  high : ℤ
deriving DecidableEq

/-- `const domestic = tripType === "domestic"` (Home.tsx). -/
def isDomestic (p : BudgetParams) : Bool :=
  match p.tripType with
  | .domestic => true
  | .international => false

/-- `const travelers = Math.max(1, numberOfPeople)` (Home.tsx). -/
def travelersOf (p : BudgetParams) : ℚ := max 1 p.numberOfPeople

def perDayLow (p : BudgetParams) : ℚ := if isDomestic p then 1200 else 2500

def perDayHigh (p : BudgetParams) : ℚ := if isDomestic p then 3000 else 6500

def fixedLow (p : BudgetParams) : ℚ := if isDomestic p then 3000 else 12000

def fixedHigh (p : BudgetParams) : ℚ := if isDomestic p then 8000 else 30000

/-- `baseLow = travelers * (days * perDayLow + fixedLow)` (Home.tsx). -/
def baseLow (p : BudgetParams) : ℚ :=
  travelersOf p * (p.days * perDayLow p + fixedLow p)

/-- `baseHigh = travelers * (days * perDayHigh + fixedHigh)` (Home.tsx). -/
def baseHigh (p : BudgetParams) : ℚ :=
  travelersOf p * (p.days * perDayHigh p + fixedHigh p)

/-- `geoMultiplier` (Home.tsx): per-country table for domestic trips
(default 1), per-region multiplier for international trips. -/
def geoMultiplier (p : BudgetParams) : ℚ :=
  if isDomestic p then
    (DOMESTIC_COST_MULTIPLIER_BY_COUNTRY.lookup
      ((getCountryFromLocation p.startLocation).getD "")).getD 1
  else getInternationalOriginMultiplier (getCountryFromLocation p.startLocation)

/-- `currencyMultiplier` (Home.tsx): 1 for domestic trips, otherwise the
currency-strength multiplier. -/
def currencyMultiplier (p : BudgetParams) : ℚ :=
  if isDomestic p then 1 else getCurrencyStrengthMultiplier p.currency

/-- `comfortMultiplier` (Home.tsx): 0.85 for the exact string "low", 1.35
for "premium", otherwise 1. -/
def comfortMultiplier (comfortLevel : String) : ℚ :=
  if comfortLevel = "low" then 0.85
  else if comfortLevel = "premium" then 1.35
  else 1

/-- `flightBudgetMultiplier` (Home.tsx): 0.78 when flights are excluded
from the stated budget. -/
def flightBudgetMultiplier (includesFlights : Bool) : ℚ :=
  if includesFlights then 1 else 0.78

/-- `flightDurationMultiplier` (Home.tsx): international trips only. -/
def flightDurationMultiplier (p : BudgetParams) : ℚ :=
  match p.tripType with
  | .international =>
    if p.maxFlightHours ≤ 6 then 0.9
    else if p.maxFlightHours ≥ 12 then 1.1
    else 1
  | .domestic => 1

/-- `estimateBudgetRangeInInr` (Home.tsx). -/
def estimateBudgetRangeInInr (p : BudgetParams) : BudgetRange :=
  { low := jsRound (baseLow p * geoMultiplier p * currencyMultiplier p *
      comfortMultiplier p.comfortLevel * flightBudgetMultiplier p.includesFlights *
      flightDurationMultiplier p)
    high := jsRound (baseHigh p * geoMultiplier p * currencyMultiplier p *
      comfortMultiplier p.comfortLevel * flightBudgetMultiplier p.includesFlights *
      flightDurationMultiplier p) }

/-- `convertInrToCurrency` (Home.tsx): divide by the table rate, default 1. -/
def convertInrToCurrency (amountInInr : ℚ) (currency : String) : ℚ :=
  amountInInr / (CURRENCY_TO_INR.lookup currency).getD 1

/-- `deriveBudgetTierFromRange` (Home.tsx). -/
def deriveBudgetTierFromRange (budgetInInr : ℚ) (rangeInInr : BudgetRange) : String :=
  if budgetInInr < (rangeInInr.low : ℚ) then "low"
  else if budgetInInr > (rangeInInr.high : ℚ) then "premium"
  else "medium"

/-- Whether `nextStep` (Home.tsx) shows the non-fatal budget warning: the
`budgetInInr < recommendedRangeInInr.low` branch is taken. -/
def budgetWarningShown (budgetInInr : ℚ) (rangeInInr : BudgetRange) : Bool :=
  decide (budgetInInr < (rangeInInr.low : ℚ))

/-- The `allowProceedAnyway` flag computed by `nextStep` (Home.tsx): inside
the warning branch it is `closeToRange && !tooInsufficientWithFlights` with
`closeToRange = budgetInInr >= low * 0.75` and `tooInsufficientWithFlights =
includes_flights && budgetInInr < low * 0.9`; outside the branch it stays
at its reset value `false`. -/
def allowProceedAnyway (budgetInInr : ℚ) (rangeInInr : BudgetRange)
    (includesFlights : Bool) : Bool :=
  if budgetInInr < (rangeInInr.low : ℚ) then
    decide ((rangeInInr.low : ℚ) * 0.75 ≤ budgetInInr) &&
      !(includesFlights && decide (budgetInInr < (rangeInInr.low : ℚ) * 0.9))
  else false

/-- Claim-side predicate, following the spec's words: proceeding is
permitted exactly when the shortfall is within 25% of the low bound and
flights are not included in the stated budget. -/
def allowProceedPerClaim (budgetInInr : ℚ) (rangeInInr : BudgetRange)
    (includesFlights : Bool) : Bool :=
  decide ((rangeInInr.low : ℚ) * 0.75 ≤ budgetInInr) && !includesFlights

/-- The comfort levels accepted by `tripRequestSchema` (shared/schema.ts):
`z.enum(["budget", "medium", "premium"])`. -/
def tripRequestComfortLevels : List String := ["budget", "medium", "premium"]

/-- Membership test of `tripRequestSchema`'s comfort-level enum. -/
def comfortLevelAccepted (s : String) : Bool := tripRequestComfortLevels.contains s

/-- The Mumbai scenario of the spec's test vector: domestic trip, origin
"Mumbai, India", 3 days, 2 travelers, medium comfort, flights excluded. -/
def pMumbai : BudgetParams :=
  { days := 3, numberOfPeople := 2, tripType := .domestic, currency := "INR",
    startLocation := "Mumbai, India", comfortLevel := "medium",
    includesFlights := false, maxFlightHours := 8 }

/-- The Mumbai scenario with flights included in the stated budget. -/
def pMumbaiFlights : BudgetParams :=
  { days := 3, numberOfPeople := 2, tripType := .domestic, currency := "INR",
    startLocation := "Mumbai, India", comfortLevel := "medium",
    includesFlights := true, maxFlightHours := 8 }

lemma lookup_mem_snd {β : Type} (l : List (String × β)) (k : String) (v : β)
    (h : List.lookup k l = some v) : v ∈ l.map Prod.snd := by
  induction l with
  | nil => simp [List.lookup] at h
  | cons a t ih =>
    obtain ⟨ka, va⟩ := a
    by_cases hk : k = ka
    · subst hk
      simp only [List.lookup, beq_self_eq_true, Option.some.injEq] at h
      simp [h]
    · have hne : (k == ka) = false := beq_false_of_ne hk
      simp only [List.lookup, hne] at h
      simp [ih h]

lemma lookup_none_of_not_key {β : Type} (l : List (String × β)) (k : String)
    (h : k ∉ l.map Prod.fst) : List.lookup k l = none := by
  induction l with
  | nil => simp [List.lookup]
  | cons a t ih =>
    obtain ⟨ka, va⟩ := a
    simp only [List.map_cons, List.mem_cons, not_or] at h
    have hne : (k == ka) = false := beq_false_of_ne h.1
    simp only [List.lookup, hne]
    exact ih h.2

lemma pos_of_lookup_getD (l : List (String × ℚ)) (k : String) (d : ℚ)
    (hd : 0 < d) (hv : ∀ v ∈ l.map Prod.snd, 0 < v) :
    0 < (List.lookup k l).getD d := by
  cases h : List.lookup k l with
  | none => simpa using hd
  | some v => simpa using hv v (lookup_mem_snd l k v h)

lemma getInternationalOriginMultiplier_pos (c : Option String) :
    0 < getInternationalOriginMultiplier c := by
  unfold getInternationalOriginMultiplier
  split_ifs <;> norm_num

lemma getCurrencyStrengthMultiplier_pos (c : String) :
    0 < getCurrencyStrengthMultiplier c := by
  unfold getCurrencyStrengthMultiplier
  split_ifs <;> norm_num

lemma geoMultiplier_pos (p : BudgetParams) : 0 < geoMultiplier p := by
  unfold geoMultiplier
  split_ifs with h
  · apply pos_of_lookup_getD _ _ _ (by norm_num)
    intro v hv
    simp only [DOMESTIC_COST_MULTIPLIER_BY_COUNTRY, List.map_cons, List.map_nil,
      List.mem_cons, List.not_mem_nil, or_false] at hv
    rcases hv with rfl | rfl | rfl | rfl | rfl | rfl | rfl | rfl | rfl <;> norm_num
  · exact getInternationalOriginMultiplier_pos _

lemma currencyMultiplier_pos (p : BudgetParams) : 0 < currencyMultiplier p := by
  unfold currencyMultiplier
  split_ifs
  · norm_num
  · exact getCurrencyStrengthMultiplier_pos _

lemma comfortMultiplier_pos (s : String) : 0 < comfortMultiplier s := by
  unfold comfortMultiplier
  split_ifs <;> norm_num

lemma flightBudgetMultiplier_pos (b : Bool) : 0 < flightBudgetMultiplier b := by
  unfold flightBudgetMultiplier
  split_ifs <;> norm_num

lemma flightDurationMultiplier_pos (p : BudgetParams) :
    0 < flightDurationMultiplier p := by
  unfold flightDurationMultiplier
  split
  · split_ifs <;> norm_num
  · norm_num

lemma travelersOf_pos (p : BudgetParams) : 0 < travelersOf p :=
  lt_of_lt_of_le one_pos (le_max_left 1 _)

lemma baseLow_le_baseHigh (p : BudgetParams) (hd : 1 ≤ p.days) :
    baseLow p ≤ baseHigh p := by
  unfold baseLow baseHigh perDayLow perDayHigh fixedLow fixedHigh
  have ht : (0 : ℚ) ≤ travelersOf p := (travelersOf_pos p).le
  cases hq : isDomestic p <;> simp only [hq, Bool.false_eq_true, if_true, if_false] <;>
    exact mul_le_mul_of_nonneg_left (by nlinarith) ht

lemma jsRound_mono {a b : ℚ} (h : a ≤ b) : jsRound a ≤ jsRound b :=
  Int.floor_le_floor (by linarith)

/-- C1: for every input with days ≥ 1 and travelers ≥ 1 (any trip type,
currency, start location, comfort level, flight inclusion and flight
hours), the range returned by `estimateBudgetRangeInInr` satisfies
low ≤ high. -/
theorem estimateBudgetRange_low_le_high (p : BudgetParams)
    (hdays : 1 ≤ p.days) (htrav : 1 ≤ p.numberOfPeople) :
    (estimateBudgetRangeInInr p).low ≤ (estimateBudgetRangeInInr p).high := by
  have hM : 0 < geoMultiplier p * currencyMultiplier p *
      comfortMultiplier p.comfortLevel * flightBudgetMultiplier p.includesFlights *
      flightDurationMultiplier p :=
    mul_pos (mul_pos (mul_pos (mul_pos (geoMultiplier_pos p)
      (currencyMultiplier_pos p)) (comfortMultiplier_pos _))
      (flightBudgetMultiplier_pos _)) (flightDurationMultiplier_pos p)
  have hbase := baseLow_le_baseHigh p hdays
  apply jsRound_mono
  have h1 : baseLow p * geoMultiplier p * currencyMultiplier p *
      comfortMultiplier p.comfortLevel * flightBudgetMultiplier p.includesFlights *
      flightDurationMultiplier p =
      baseLow p * (geoMultiplier p * currencyMultiplier p *
        comfortMultiplier p.comfortLevel * flightBudgetMultiplier p.includesFlights *
        flightDurationMultiplier p) := by ring
  have h2 : baseHigh p * geoMultiplier p * currencyMultiplier p *
      comfortMultiplier p.comfortLevel * flightBudgetMultiplier p.includesFlights *
      flightDurationMultiplier p =
      baseHigh p * (geoMultiplier p * currencyMultiplier p *
        comfortMultiplier p.comfortLevel * flightBudgetMultiplier p.includesFlights *
        flightDurationMultiplier p) := by ring
  rw [h1, h2]
  exact mul_le_mul_of_nonneg_right hbase hM.le

/-- Witness for C1 at the concrete Mumbai input. -/
theorem estimateBudgetRange_low_le_high_witness :
    (1 ≤ pMumbai.days) ∧ (1 ≤ pMumbai.numberOfPeople) ∧
    (estimateBudgetRangeInInr pMumbai).low ≤ (estimateBudgetRangeInInr pMumbai).high :=
  ⟨by norm_num [pMumbai], by norm_num [pMumbai],
    estimateBudgetRange_low_le_high pMumbai (by norm_num [pMumbai])
      (by norm_num [pMumbai])⟩

lemma pMumbai_range : estimateBudgetRangeInInr pMumbai = ⟨8752, 22542⟩ := by
  have hgeo : geoMultiplier pMumbai = 0.85 := rfl
  have hcur : currencyMultiplier pMumbai = 1 := rfl
  have hcom : comfortMultiplier pMumbai.comfortLevel = 1 := rfl
  have hfb : flightBudgetMultiplier pMumbai.includesFlights = 0.78 := rfl
  have hfd : flightDurationMultiplier pMumbai = 1 := rfl
  have htrav : travelersOf pMumbai = 2 := max_eq_right (by norm_num [pMumbai])
  have hbl : baseLow pMumbai = 13200 := by
    rw [baseLow, htrav, show perDayLow pMumbai = 1200 from rfl,
      show fixedLow pMumbai = 3000 from rfl, show pMumbai.days = 3 from rfl]
    norm_num
  have hbh : baseHigh pMumbai = 34000 := by
    rw [baseHigh, htrav, show perDayHigh pMumbai = 3000 from rfl,
      show fixedHigh pMumbai = 8000 from rfl, show pMumbai.days = 3 from rfl]
    norm_num
  rw [estimateBudgetRangeInInr, hgeo, hcur, hcom, hfb, hfd, hbl, hbh]
  simp only [BudgetRange.mk.injEq]
  constructor <;> norm_num [jsRound]

lemma pMumbaiFlights_range : estimateBudgetRangeInInr pMumbaiFlights = ⟨11220, 28900⟩ := by
  have hgeo : geoMultiplier pMumbaiFlights = 0.85 := rfl
  have hcur : currencyMultiplier pMumbaiFlights = 1 := rfl
  have hcom : comfortMultiplier pMumbaiFlights.comfortLevel = 1 := rfl
  have hfb : flightBudgetMultiplier pMumbaiFlights.includesFlights = 1 := rfl
  have hfd : flightDurationMultiplier pMumbaiFlights = 1 := rfl
  have htrav : travelersOf pMumbaiFlights = 2 := max_eq_right (by norm_num [pMumbaiFlights])
  have hbl : baseLow pMumbaiFlights = 13200 := by
    rw [baseLow, htrav, show perDayLow pMumbaiFlights = 1200 from rfl,
      show fixedLow pMumbaiFlights = 3000 from rfl,
      show pMumbaiFlights.days = 3 from rfl]
    norm_num
  have hbh : baseHigh pMumbaiFlights = 34000 := by
    rw [baseHigh, htrav, show perDayHigh pMumbaiFlights = 3000 from rfl,
      show fixedHigh pMumbaiFlights = 8000 from rfl,
      show pMumbaiFlights.days = 3 from rfl]
    norm_num
  rw [estimateBudgetRangeInInr, hgeo, hcur, hcom, hfb, hfd, hbl, hbh]
  simp only [BudgetRange.mk.injEq]
  constructor <;> norm_num [jsRound]

/-- C2 counterexample: on the Mumbai test vector (domestic, 3 days, 2
travelers, medium comfort, flights excluded) the code's low bound is 8752,
not the spec formula's `round(2*(3*1200+3000)*0.85*1*0.85*0.78) = 7439`:
with medium comfort the comfort multiplier is 1, not 0.85. -/
theorem mumbai_range_claimed_formula_fails :
    (estimateBudgetRangeInInr pMumbai).low ≠
      jsRound ((2 * (3 * 1200 + 3000) : ℚ) * 0.85 * 1 * 0.85 * 0.78) := by
  rw [pMumbai_range]
  have h : jsRound ((2 * (3 * 1200 + 3000) : ℚ) * 0.85 * 1 * 0.85 * 0.78) = 7439 := by
    norm_num [jsRound]
  rw [h]
  decide

/-- C2 amended: on the Mumbai test vector the range equals
`round(2*(3*1200+3000)*0.85*1*1*0.78) = 8752` for the low bound and
`round(2*(3*3000+8000)*0.85*1*1*0.78) = 22542` for the high bound — the
comfort multiplier for medium comfort is 1, not 0.85. -/
theorem mumbai_range_exact :
    (estimateBudgetRangeInInr pMumbai).low =
      jsRound ((2 * (3 * 1200 + 3000) : ℚ) * 0.85 * 1 * 1 * 0.78) ∧
    (estimateBudgetRangeInInr pMumbai).high =
      jsRound ((2 * (3 * 3000 + 8000) : ℚ) * 0.85 * 1 * 1 * 0.78) := by
  rw [pMumbai_range]
  constructor <;> norm_num [jsRound]

/-- C3 counterexample: for the Mumbai scenario with flights included
(range low = 11220) and a budget of 11000 in the reference currency, the
warning is shown and the code permits proceeding (the shortfall is below
10% of the low bound), while the claim's condition — flights not included —
forbids it. -/
theorem warn_allow_proceed_flights_counterexample :
    budgetWarningShown 11000 (estimateBudgetRangeInInr pMumbaiFlights) = true ∧
    allowProceedAnyway 11000 (estimateBudgetRangeInInr pMumbaiFlights) true = true ∧
    allowProceedPerClaim 11000 (estimateBudgetRangeInInr pMumbaiFlights) true = false := by
  have hlow : (((estimateBudgetRangeInInr pMumbaiFlights).low : ℤ) : ℚ) = 11220 := by
    rw [pMumbaiFlights_range]
    norm_num
  have hlt : (11000 : ℚ) < ((estimateBudgetRangeInInr pMumbaiFlights).low : ℚ) := by
    rw [hlow]
    norm_num
  have hA : ((estimateBudgetRangeInInr pMumbaiFlights).low : ℚ) * 0.75 ≤ 11000 := by
    rw [hlow]
    norm_num
  have hB : ¬ ((11000 : ℚ) < ((estimateBudgetRangeInInr pMumbaiFlights).low : ℚ) * 0.9) := by
    rw [hlow]
    norm_num
  refine ⟨?_, ?_, ?_⟩
  · simp [budgetWarningShown, hlt]
  · rw [allowProceedAnyway, if_pos hlt]
    simp [hA, hB]
  · simp [allowProceedPerClaim]

/-- C3 amended: when the budget (in the reference currency) is below the
range's low bound, the warning is shown, and proceeding anyway is permitted
exactly when the budget is at least 75% of the low bound and, in case
flights are included in the stated budget, at least 90% of the low bound;
when flights are excluded, only the 75% condition applies. -/
theorem warn_allow_proceed (b : ℚ) (r : BudgetRange) (fl : Bool)
    (h : b < (r.low : ℚ)) :
    budgetWarningShown b r = true ∧
    (allowProceedAnyway b r fl = true ↔
      ((r.low : ℚ) * 0.75 ≤ b ∧ (fl = true → ¬ b < (r.low : ℚ) * 0.9))) := by
  refine ⟨by simp [budgetWarningShown, h], ?_⟩
  rw [allowProceedAnyway, if_pos h]
  cases fl <;> simp

/-- Witness for C3's amended theorem at a concrete range and budget. -/
theorem warn_allow_proceed_witness :
    ((80 : ℚ) < ((BudgetRange.mk 100 200).low : ℚ)) ∧
    (budgetWarningShown 80 ⟨100, 200⟩ = true ∧
      (allowProceedAnyway 80 ⟨100, 200⟩ false = true ↔
        (((BudgetRange.mk 100 200).low : ℚ) * 0.75 ≤ 80 ∧
          (false = true → ¬ (80 : ℚ) < ((BudgetRange.mk 100 200).low : ℚ) * 0.9)))) :=
  ⟨by norm_num, warn_allow_proceed 80 ⟨100, 200⟩ false (by norm_num)⟩

lemma deriveTier_low_iff (b : ℚ) (r : BudgetRange) :
    deriveBudgetTierFromRange b r = "low" ↔ b < (r.low : ℚ) := by
  rw [deriveBudgetTierFromRange]
  split_ifs with h1 h2
  · simp [h1]
  · constructor
    · intro hh
      exact absurd hh (by decide)
    · intro hh
      exact absurd hh h1
  · constructor
    · intro hh
      exact absurd hh (by decide)
    · intro hh
      exact absurd hh h1

lemma deriveTier_premium_iff (b : ℚ) (r : BudgetRange)
    (hlh : (r.low : ℚ) ≤ (r.high : ℚ)) :
    deriveBudgetTierFromRange b r = "premium" ↔ (r.high : ℚ) < b := by
  rw [deriveBudgetTierFromRange]
  split_ifs with h1 h2
  · constructor
    · intro hh
      exact absurd hh (by decide)
    · intro hh
      linarith
  · simp [h2]
  · constructor
    · intro hh
      exact absurd hh (by decide)
    · intro hh
      exact absurd hh h2

lemma deriveTier_medium_iff (b : ℚ) (r : BudgetRange) :
    deriveBudgetTierFromRange b r = "medium" ↔
      ((r.low : ℚ) ≤ b ∧ b ≤ (r.high : ℚ)) := by
  rw [deriveBudgetTierFromRange]
  split_ifs with h1 h2
  · constructor
    · intro hh
      exact absurd hh (by decide)
    · intro hh
      linarith [hh.1]
  · constructor
    · intro hh
      exact absurd hh (by decide)
    · intro hh
      linarith [hh.2]
  · constructor
    · intro _
      exact ⟨not_lt.mp h1, not_lt.mp h2⟩
    · intro _
      rfl

/-- C4: `deriveBudgetTierFromRange` classifies the budget as "low" iff it
is below the range's low bound, "premium" iff above the high bound, and
"medium" otherwise; in particular low − 1 gives "low", high + 1 gives
"premium", and the midpoint gives "medium". -/
theorem deriveBudgetTier_spec (b : ℚ) (r : BudgetRange) (h : r.low ≤ r.high) :
    (deriveBudgetTierFromRange b r = "low" ↔ b < (r.low : ℚ)) ∧
    (deriveBudgetTierFromRange b r = "premium" ↔ (r.high : ℚ) < b) ∧
    (deriveBudgetTierFromRange b r = "medium" ↔
      ((r.low : ℚ) ≤ b ∧ b ≤ (r.high : ℚ))) ∧
    deriveBudgetTierFromRange ((r.low : ℚ) - 1) r = "low" ∧
    deriveBudgetTierFromRange ((r.high : ℚ) + 1) r = "premium" ∧
    deriveBudgetTierFromRange (((r.low : ℚ) + (r.high : ℚ)) / 2) r = "medium" := by
  have hlh : (r.low : ℚ) ≤ (r.high : ℚ) := by exact_mod_cast h
  refine ⟨deriveTier_low_iff b r, deriveTier_premium_iff b r hlh,
    deriveTier_medium_iff b r, ?_, ?_, ?_⟩
  · exact (deriveTier_low_iff _ r).mpr (by linarith)
  · exact (deriveTier_premium_iff _ r hlh).mpr (by linarith)
  · exact (deriveTier_medium_iff _ r).mpr ⟨by linarith, by linarith⟩

/-- Witness for C4 at a concrete budget and range. -/
theorem deriveBudgetTier_spec_witness :
    ((BudgetRange.mk 100 200).low ≤ (BudgetRange.mk 100 200).high) ∧
    ((deriveBudgetTierFromRange 150 ⟨100, 200⟩ = "low" ↔
        (150 : ℚ) < ((BudgetRange.mk 100 200).low : ℚ)) ∧
      (deriveBudgetTierFromRange 150 ⟨100, 200⟩ = "premium" ↔
        ((BudgetRange.mk 100 200).high : ℚ) < 150) ∧
      (deriveBudgetTierFromRange 150 ⟨100, 200⟩ = "medium" ↔
        (((BudgetRange.mk 100 200).low : ℚ) ≤ 150 ∧
          (150 : ℚ) ≤ ((BudgetRange.mk 100 200).high : ℚ))) ∧
      deriveBudgetTierFromRange (((BudgetRange.mk 100 200).low : ℚ) - 1) ⟨100, 200⟩ = "low" ∧
      deriveBudgetTierFromRange (((BudgetRange.mk 100 200).high : ℚ) + 1) ⟨100, 200⟩ =
        "premium" ∧
      deriveBudgetTierFromRange
          ((((BudgetRange.mk 100 200).low : ℚ) + ((BudgetRange.mk 100 200).high : ℚ)) / 2)
          ⟨100, 200⟩ = "medium") :=
  ⟨by decide, deriveBudgetTier_spec 150 ⟨100, 200⟩ (by decide)⟩

/-- C5: `getCountryFromLocation` splits on commas, trims each segment,
drops empty segments, takes the last non-empty segment and normalizes it
through the alias table (falling back to the trimmed segment itself), and
returns none for empty or comma-only input; "Chennai, India" yields
"India", "" yields none, and "USA" yields "United States". -/
theorem getCountryFromLocation_spec :
    (∀ loc : String, getCountryFromLocation loc =
      normalizeCountryName
        ((((splitOnComma loc).map jsTrim).filter (fun s => s ≠ "")).getLast?)) ∧
    (∀ loc : String,
      (((splitOnComma loc).map jsTrim).filter (fun s => s ≠ "")) = [] →
        getCountryFromLocation loc = none) ∧
    getCountryFromLocation "Chennai, India" = some "India" ∧
    getCountryFromLocation "" = none ∧
    getCountryFromLocation ",, ," = none ∧
    getCountryFromLocation "USA" = some "United States" := by
  refine ⟨?_, ?_, by decide, by decide, by decide, by decide⟩
  · intro loc
    unfold getCountryFromLocation
    cases h : (((splitOnComma loc).map jsTrim).filter (fun s => s ≠ "")).getLast? with
    | none => rfl
    | some lastPart => rfl
  · intro loc h
    unfold getCountryFromLocation
    rw [h]
    rfl

/-- C6: `getRegionFromCountry` always returns one of the eight fixed region
tags, returns "global" for `none` and for any country absent from the
table; "Japan" yields "asia" and "Atlantis" yields "global". -/
theorem getRegionFromCountry_spec :
    (∀ c : Option String, getRegionFromCountry c ∈ REGION_TAGS) ∧
    getRegionFromCountry none = "global" ∧
    (∀ c : String, c ∉ COUNTRY_REGION.map Prod.fst →
      getRegionFromCountry (some c) = "global") ∧
    getRegionFromCountry (some "Japan") = "asia" ∧
    getRegionFromCountry (some "Atlantis") = "global" := by
  refine ⟨?_, rfl, ?_, rfl, rfl⟩
  · intro c
    cases c with
    | none => decide
    | some s =>
      rw [show getRegionFromCountry (some s) =
        (COUNTRY_REGION.lookup s).getD "global" from rfl]
      cases h : COUNTRY_REGION.lookup s with
      | none => decide
      | some v =>
        have hv : v ∈ COUNTRY_REGION.map Prod.snd := lookup_mem_snd _ _ _ h
        have hall : ∀ x ∈ COUNTRY_REGION.map Prod.snd, x ∈ REGION_TAGS := by decide
        simp only [h, Option.getD_some]
        exact hall v hv
  · intro c hc
    rw [show getRegionFromCountry (some c) =
      (COUNTRY_REGION.lookup c).getD "global" from rfl,
      lookup_none_of_not_key _ _ hc]
    rfl

/-- Witness for C6's unknown-country conjunct at "Atlantis". -/
theorem getRegionFromCountry_spec_witness :
    ("Atlantis" ∉ COUNTRY_REGION.map Prod.fst) ∧
    getRegionFromCountry (some "Atlantis") = "global" :=
  ⟨by decide, getRegionFromCountry_spec.2.2.1 "Atlantis" (by decide)⟩

lemma currencyRate_ne_zero (c : String) : (CURRENCY_TO_INR.lookup c).getD 1 ≠ 0 := by
  cases h : CURRENCY_TO_INR.lookup c with
  | none =>
    simp only [Option.getD_none]
    norm_num
  | some v =>
    simp only [Option.getD_some]
    have hv : v ∈ CURRENCY_TO_INR.map Prod.snd := lookup_mem_snd _ _ _ h
    simp only [CURRENCY_TO_INR, List.map_cons, List.map_nil, List.mem_cons,
      List.not_mem_nil, or_false] at hv
    rcases hv with rfl | rfl | rfl | rfl | rfl | rfl | rfl <;> norm_num

/-- C7: `convertInrToCurrency` divides by the static table rate (1 for
unrecognized codes); for "USD" it returns amount/83, and multiplying the
result back by the same rate reproduces the amount exactly over ℚ. -/
theorem convertInrToCurrency_spec :
    (∀ (amount : ℚ) (c : String),
      convertInrToCurrency amount c = amount / (CURRENCY_TO_INR.lookup c).getD 1) ∧
    ((CURRENCY_TO_INR.lookup "USD").getD 1 = 83) ∧
    (∀ amount : ℚ, convertInrToCurrency amount "USD" = amount / 83) ∧
    (∀ (amount : ℚ) (c : String), CURRENCY_TO_INR.lookup c = none →
      convertInrToCurrency amount c = amount) ∧
    (∀ (amount : ℚ) (c : String),
      convertInrToCurrency amount c * (CURRENCY_TO_INR.lookup c).getD 1 = amount) := by
  refine ⟨fun amount c => rfl, rfl, ?_, ?_, ?_⟩
  · intro amount
    rw [convertInrToCurrency, show (CURRENCY_TO_INR.lookup "USD").getD 1 = 83 from rfl]
  · intro amount c h
    rw [convertInrToCurrency, h]
    simp
  · intro amount c
    rw [convertInrToCurrency]
    exact div_mul_cancel₀ amount (currencyRate_ne_zero c)

/-- Witness for C7's unknown-code conjunct at the code "XYZ". -/
theorem convertInrToCurrency_spec_witness :
    (CURRENCY_TO_INR.lookup "XYZ" = none) ∧ convertInrToCurrency 5 "XYZ" = 5 :=
  ⟨rfl, convertInrToCurrency_spec.2.2.2.1 5 "XYZ" rfl⟩

/-- C8: a currency code absent from the static tables gets rate 1 and
strength "medium" (multiplier 1.0), and the divisor used by the conversion
is never zero; all the heuristic functions are total by construction. -/
theorem unknown_currency_defaults :
    (∀ c : String, CURRENCY_STRENGTH.lookup c = none →
      ((CURRENCY_STRENGTH.lookup c).getD "medium" = "medium" ∧
        getCurrencyStrengthMultiplier c = 1)) ∧
    (∀ (amount : ℚ) (c : String), CURRENCY_TO_INR.lookup c = none →
      convertInrToCurrency amount c = amount) ∧
    (∀ c : String, (CURRENCY_TO_INR.lookup c).getD 1 ≠ 0) := by
  refine ⟨?_, ?_, currencyRate_ne_zero⟩
  · intro c h
    constructor
    · rw [h]
      rfl
    · rw [getCurrencyStrengthMultiplier, h]
      simp only [Option.getD_none]
      rw [if_neg (by decide), if_neg (by decide)]
      norm_num
  · intro amount c h
    rw [convertInrToCurrency, h]
    simp

/-- Witness for C8 at the unknown code "XYZ". -/
theorem unknown_currency_defaults_witness :
    (CURRENCY_STRENGTH.lookup "XYZ" = none) ∧
    ((CURRENCY_STRENGTH.lookup "XYZ").getD "medium" = "medium" ∧
      getCurrencyStrengthMultiplier "XYZ" = 1) :=
  ⟨rfl, unknown_currency_defaults.1 "XYZ" rfl⟩

/-- C9: for domestic trips the estimated range does not depend on the
currency code or on max flight hours — the currency-strength and
flight-duration multipliers apply to international trips only. -/
theorem domestic_range_ignores_currency_and_flight_hours
    (days n : ℚ) (ca cb loc comfort : String) (fl : Bool) (ha hb : ℚ) :
    estimateBudgetRangeInInr
        ⟨days, n, .domestic, ca, loc, comfort, fl, ha⟩ =
      estimateBudgetRangeInInr
        ⟨days, n, .domestic, cb, loc, comfort, fl, hb⟩ := rfl

/-- The Mumbai scenario with the schema's "budget" comfort level. -/
def pBudgetComfort : BudgetParams :=
  { days := 3, numberOfPeople := 2, tripType := .domestic, currency := "INR",
    startLocation := "Mumbai, India", comfortLevel := "budget",
    includesFlights := true, maxFlightHours := 8 }

/-- C10: any comfort level other than the exact strings "low" and
"premium" — including "budget", the only sub-medium tier the request
schema accepts — gets comfort multiplier 1 and yields the same range as
"medium"; the 0.85 discount happens only for "low", which the schema
rejects. -/
theorem comfort_only_low_discounts :
    (∀ p : BudgetParams, p.comfortLevel ≠ "low" → p.comfortLevel ≠ "premium" →
      (comfortMultiplier p.comfortLevel = 1 ∧
        estimateBudgetRangeInInr p =
          estimateBudgetRangeInInr { p with comfortLevel := "medium" })) ∧
    (∀ s : String, comfortMultiplier s = 0.85 ↔ s = "low") ∧
    comfortLevelAccepted "budget" = true ∧
    comfortLevelAccepted "low" = false := by
  refine ⟨?_, ?_, rfl, rfl⟩
  · intro p h1 h2
    obtain ⟨d, n, tt, c, loc, cl, fl, mh⟩ := p
    simp only at h1 h2
    have hm : comfortMultiplier cl = 1 := by
      rw [comfortMultiplier, if_neg h1, if_neg h2]
    refine ⟨hm, ?_⟩
    simp only [estimateBudgetRangeInInr, geoMultiplier, currencyMultiplier,
      isDomestic, baseLow, baseHigh, travelersOf, perDayLow, perDayHigh,
      fixedLow, fixedHigh, flightBudgetMultiplier, flightDurationMultiplier]
    rw [hm, show comfortMultiplier "medium" = 1 from rfl]
  · intro s
    rw [comfortMultiplier]
    split_ifs with h1 h2
    · simp [h1]
    · constructor
      · intro hh
        exact absurd hh (by norm_num)
      · intro hh
        exact absurd hh h1
    · constructor
      · intro hh
        exact absurd hh (by norm_num)
      · intro hh
        exact absurd hh h1

/-- Witness for C10 at the "budget" comfort level. -/
theorem comfort_only_low_discounts_witness :
    (pBudgetComfort.comfortLevel ≠ "low") ∧ (pBudgetComfort.comfortLevel ≠ "premium") ∧
    (comfortMultiplier pBudgetComfort.comfortLevel = 1 ∧
      estimateBudgetRangeInInr pBudgetComfort =
        estimateBudgetRangeInInr { pBudgetComfort with comfortLevel := "medium" }) :=
  ⟨by decide, by decide,
    comfort_only_low_discounts.1 pBudgetComfort (by decide) (by decide)⟩

/-- Witness for C5's comma-only conjunct at the input ",". -/
theorem getCountryFromLocation_spec_witness :
    ((((splitOnComma ",").map jsTrim).filter (fun s => s ≠ "")) = []) ∧
    getCountryFromLocation "," = none :=
  ⟨by decide, getCountryFromLocation_spec.2.1 "," (by decide)⟩
